import Mathlib

/-
Verification of the service-tracker parsing/pairing/reconciliation engine.

Shallow embedding of:
  - src/orbcomm_processor.py   (SimpleORBCOMMParser.parse_text)
  - src/orbcomm_tracker/database.py (insert_notification, link_notification_pair)
  - src/orbcomm_tracker/parser.py   (parse_and_store, parse_and_store_batch, link_all_pairs)
  - src/orbcomm_tracker/sync.py     (SyncOrchestrator.sync, pairing phase)

Python strings are modelled as Lean String / List Char (the sources are ASCII;
Python's Unicode-aware character classes are modelled on the ASCII range, which
covers every string the repository produces or consumes).
-/

namespace ServiceTracker

/-! ## Character helpers (ASCII models of the Python character classes) -/

/-- ASCII digit test, as used by the `\d` class of the `re` patterns. -/
def isDigitCh (c : Char) : Bool := 48 ≤ c.toNat && c.toNat ≤ 57

/-- Whitespace test modelling Python's `\s` class and `str.strip()` /
`str.split()` default separators, restricted to ASCII whitespace. -/
def isSpaceCh (c : Char) : Bool :=
  c.toNat == 32 || c.toNat == 9 || c.toNat == 10 || c.toNat == 13 || c.toNat == 11 || c.toNat == 12

/-- ASCII lower-casing, modelling `str.lower()` on the ASCII range. -/
def pyLower (c : Char) : Char :=
  if 65 ≤ c.toNat && c.toNat ≤ 90 then Char.ofNat (c.toNat + 32) else c

/-- Test whether `needle` is an initial segment of `hay` (model of
`str.startswith` and of anchoring a regex literal at a position). -/
def beginsWith : List Char → List Char → Bool
  | [], _ => true
  | _ :: _, [] => false
  | a :: as, b :: bs => a == b && beginsWith as bs

/-- Substring test, model of Python's `needle in hay`. -/
def containsStr (needle : List Char) : List Char → Bool
  | [] => beginsWith needle []
  | c :: cs => beginsWith needle (c :: cs) || containsStr needle cs

/-- Model of `str.strip()` (strip ASCII whitespace from both ends). -/
def stripChars (cs : List Char) : List Char :=
  ((cs.dropWhile isSpaceCh).reverse.dropWhile isSpaceCh).reverse

/-- Model of `text.split("\n")`: split on every newline, keeping empty pieces
(`"".split("\n") == [""]`). -/
def splitOnNewline : List Char → List (List Char)
  | [] => [[]]
  | c :: rest =>
    if c == '\n' then [] :: splitOnNewline rest
    else
      match splitOnNewline rest with
      | [] => [[c]]
      | l :: ls => (c :: l) :: ls

/-- Model of `line.split(":", 1)[1]`: everything after the first colon
(callers only use it on lines known to contain a colon). -/
def afterFirstColon : List Char → List Char
  | [] => []
  | c :: rest => if c == ':' then rest else afterFirstColon rest

/-- Model of `s.replace(" GMT", "")`: delete every occurrence of `" GMT"`,
scanning left to right and skipping past each replacement. -/
def replaceGMT : List Char → List Char
  | ' ' :: 'G' :: 'M' :: 'T' :: rest => replaceGMT rest
  | c :: cs => c :: replaceGMT cs
  | [] => []

/-- Lexicographic byte-order comparison of two character lists, the order
SQLite uses for `ORDER BY` on a TEXT column (memcmp order). -/
def lexLe : List Char → List Char → Bool
  | [], _ => true
  | _ :: _, [] => false
  | a :: as, b :: bs =>
    if a.toNat < b.toNat then true
    else if b.toNat < a.toNat then false
    else lexLe as bs

/-! ## Dates and times

`DateTime` carries the five fields the sources manipulate (`strptime` with
`%Y-%m-%d %H:%M` produces second = 0 everywhere, so seconds are kept implicit
and reintroduced as the literal `":00"` / `* 60` where the source does). -/

structure Date where
  year : Nat
  month : Nat
  day : Nat
deriving DecidableEq, Repr

structure DateTime where
  year : Nat
  month : Nat
  day : Nat
  hour : Nat
  minute : Nat
deriving DecidableEq, Repr

/-- Leap-year rule of the proleptic Gregorian calendar (Python `datetime`). -/
def isLeapYear (y : Nat) : Bool := (y % 4 == 0 && y % 100 != 0) || y % 400 == 0

/-- Days in a month of a (non-)leap year. -/
def monthLength (leap : Bool) (m : Nat) : Nat :=
  if m = 2 then (if leap then 29 else 28)
  else if m = 4 ∨ m = 6 ∨ m = 9 ∨ m = 11 then 30
  else 31

/-- Days in the months `1 .. m-1` of one year. -/
def daysBeforeMonth (leap : Bool) : Nat → Nat
  | 0 => 0
  | 1 => 0
  | m + 1 => daysBeforeMonth leap m + monthLength leap m

/-- Days in the years `1 .. y-1` (Python `date.toordinal` minus one is this
plus the in-year day count). -/
def daysBeforeYear (y : Nat) : Nat :=
  (y - 1) * 365 + ((y - 1) / 4 - (y - 1) / 100 + (y - 1) / 400)

/-- Day number of a calendar date (0 = January 1 of year 1), the linearisation
under Python `datetime` subtraction. -/
def daysFromCivil (d : Date) : Nat :=
  daysBeforeYear d.year + daysBeforeMonth (isLeapYear d.year) d.month + (d.day - 1)

/-- Date part of a `DateTime`. -/
def DateTime.toDate (dt : DateTime) : Date := ⟨dt.year, dt.month, dt.day⟩

/-- Minutes since the epoch of the model; differences of this value are exactly
what Python's `timedelta.total_seconds() / 60` yields on whole-minute
datetimes. -/
def minutesSinceEpoch (dt : DateTime) : Int :=
  ((daysFromCivil dt.toDate * 1440 + dt.hour * 60 + dt.minute : Nat) : Int)

/-- Validity of a calendar date as enforced by the `datetime(...)` constructor
(`MINYEAR = 1`, `MAXYEAR = 9999`, day within the month). -/
def validDate (y m d : Nat) : Bool :=
  1 ≤ y && y ≤ 9999 && 1 ≤ d && d ≤ monthLength (isLeapYear y) m

/-- Field ranges satisfied by every `DateTime` the parsers produce. -/
def DateTime.Valid (dt : DateTime) : Prop :=
  1 ≤ dt.year ∧ dt.year ≤ 9999 ∧ 1 ≤ dt.month ∧ dt.month ≤ 12 ∧
  1 ≤ dt.day ∧ dt.day ≤ monthLength (isLeapYear dt.year) dt.month ∧
  dt.hour ≤ 23 ∧ dt.minute ≤ 59

/-- Same field ranges for a bare `Date`. -/
def Date.Valid (d : Date) : Prop :=
  1 ≤ d.year ∧ d.year ≤ 9999 ∧ 1 ≤ d.month ∧ d.month ≤ 12 ∧
  1 ≤ d.day ∧ d.day ≤ monthLength (isLeapYear d.year) d.month

/-! ## Zero-padded decimal formatting (`strftime` field models) -/

/-- Decimal digit character of `n` (callers pass `n < 10`). -/
def digitChar : Nat → Char
  | 0 => '0' | 1 => '1' | 2 => '2' | 3 => '3' | 4 => '4'
  | 5 => '5' | 6 => '6' | 7 => '7' | 8 => '8' | _ => '9'

/-- Two-digit zero-padded field (`%m`, `%d`, `%H`, `%M`, `%S`). -/
def fmt2 (n : Nat) : List Char := [digitChar (n / 10 % 10), digitChar (n % 10)]

/-- Four-digit zero-padded year (`%Y` for the years the parsers produce). -/
def fmt4 (n : Nat) : List Char :=
  [digitChar (n / 1000 % 10), digitChar (n / 100 % 10), digitChar (n / 10 % 10), digitChar (n % 10)]

/-- Model of `dt.strftime("%Y-%m-%d")`. -/
def fmtDateOfDate (d : Date) : List Char :=
  fmt4 d.year ++ '-' :: fmt2 d.month ++ '-' :: fmt2 d.day

/-- Model of `dt.strftime("%Y-%m-%d")` on a `DateTime`. -/
def fmtDateYmd (dt : DateTime) : List Char := fmtDateOfDate dt.toDate

/-- Model of `dt.strftime("%H:%M")`. -/
def fmtTimeHM (dt : DateTime) : List Char := fmt2 dt.hour ++ ':' :: fmt2 dt.minute

/-- Model of `dt.strftime("%Y-%m-%d %H:%M:%S")` on the whole-minute datetimes
produced by the incident-time parser (second = 0, printed as `":00"`). -/
def fmtYmdHMS (dt : DateTime) : List Char :=
  fmtDateYmd dt ++ ' ' :: fmtTimeHM dt ++ [':', '0', '0']

/-! ## `strptime` field parsers

Python compiles `%Y-%m-%d %H:%M[:%S]` to the regex
`\d\d\d\d-(1[0-2]|0[1-9]|[1-9])-(3[01]|[12]\d|0[1-9]|[1-9])\s+(2[0-3]|[0-1]\d|\d):([0-5]\d|\d)(:([0-5]\d|\d))?`
(whitespace in a format becomes `\s+`), requires the whole string to match, and
then validates the fields through the `datetime(...)` constructor.  Each field
parser below follows the alternation order of the corresponding regex group
(greedy, first alternative wins, no backtracking is ever needed because a
shorter alternative is only taken when the longer one cannot match). -/

/-- Field `%Y`: exactly four digits. -/
def parseYear4 : List Char → Option (Nat × List Char)
  | a :: b :: c :: d :: rest =>
    if isDigitCh a && isDigitCh b && isDigitCh c && isDigitCh d then
      some ((a.toNat - 48) * 1000 + (b.toNat - 48) * 100 + (c.toNat - 48) * 10 + (d.toNat - 48), rest)
    else none
  | _ => none

/-- Field `%m`: regex `1[0-2]|0[1-9]|[1-9]`. -/
def parseMonthField : List Char → Option (Nat × List Char)
  | c1 :: c2 :: rest =>
    if c1.toNat == 49 && 48 ≤ c2.toNat && c2.toNat ≤ 50 then some (10 + (c2.toNat - 48), rest)
    else if c1.toNat == 48 && 49 ≤ c2.toNat && c2.toNat ≤ 57 then some (c2.toNat - 48, rest)
    else if 49 ≤ c1.toNat && c1.toNat ≤ 57 then some (c1.toNat - 48, c2 :: rest)
    else none
  | [c] => if 49 ≤ c.toNat && c.toNat ≤ 57 then some (c.toNat - 48, []) else none
  | [] => none

/-- Field `%d`: regex `3[01]|[12]\d|0[1-9]|[1-9]`. -/
def parseDayField : List Char → Option (Nat × List Char)
  | c1 :: c2 :: rest =>
    if c1.toNat == 51 && (c2.toNat == 48 || c2.toNat == 49) then some (30 + (c2.toNat - 48), rest)
    else if 49 ≤ c1.toNat && c1.toNat ≤ 50 && 48 ≤ c2.toNat && c2.toNat ≤ 57 then
      some ((c1.toNat - 48) * 10 + (c2.toNat - 48), rest)
    else if c1.toNat == 48 && 49 ≤ c2.toNat && c2.toNat ≤ 57 then some (c2.toNat - 48, rest)
    else if 49 ≤ c1.toNat && c1.toNat ≤ 57 then some (c1.toNat - 48, c2 :: rest)
    else none
  | [c] => if 49 ≤ c.toNat && c.toNat ≤ 57 then some (c.toNat - 48, []) else none
  | [] => none

/-- Field `%H`: regex `2[0-3]|[0-1]\d|\d`. -/
def parseHourField : List Char → Option (Nat × List Char)
  | c1 :: c2 :: rest =>
    if c1.toNat == 50 && 48 ≤ c2.toNat && c2.toNat ≤ 51 then some (20 + (c2.toNat - 48), rest)
    else if 48 ≤ c1.toNat && c1.toNat ≤ 49 && 48 ≤ c2.toNat && c2.toNat ≤ 57 then
      some ((c1.toNat - 48) * 10 + (c2.toNat - 48), rest)
    else if 48 ≤ c1.toNat && c1.toNat ≤ 57 then some (c1.toNat - 48, c2 :: rest)
    else none
  | [c] => if 48 ≤ c.toNat && c.toNat ≤ 57 then some (c.toNat - 48, []) else none
  | [] => none

/-- Fields `%M` and `%S`: regex `[0-5]\d|\d`. -/
def parseMinuteField : List Char → Option (Nat × List Char)
  | c1 :: c2 :: rest =>
    if 48 ≤ c1.toNat && c1.toNat ≤ 53 && 48 ≤ c2.toNat && c2.toNat ≤ 57 then
      some ((c1.toNat - 48) * 10 + (c2.toNat - 48), rest)
    else if 48 ≤ c1.toNat && c1.toNat ≤ 57 then some (c1.toNat - 48, c2 :: rest)
    else none
  | [c] => if 48 ≤ c.toNat && c.toNat ≤ 57 then some (c.toNat - 48, []) else none
  | [] => none

/-- Literal separator in a `strptime` format. -/
def expectChar (c : Char) : List Char → Option (List Char)
  | x :: rest => if x == c then some rest else none
  | [] => none

/-- Whitespace in a `strptime` format matches `\s+` (one or more). -/
def expectSpaces : List Char → Option (List Char)
  | c :: rest => if isSpaceCh c then some (rest.dropWhile isSpaceCh) else none
  | [] => none

/-- Model of `datetime.strptime(s, "%Y-%m-%d %H:%M")`: the whole string must be
consumed, and the resulting fields must form a valid calendar date. -/
def parseYmdHM (cs : List Char) : Option DateTime :=
  match parseYear4 cs with
  | none => none
  | some (y, r1) =>
  match expectChar '-' r1 with
  | none => none
  | some r2 =>
  match parseMonthField r2 with
  | none => none
  | some (m, r3) =>
  match expectChar '-' r3 with
  | none => none
  | some r4 =>
  match parseDayField r4 with
  | none => none
  | some (d, r5) =>
  match expectSpaces r5 with
  | none => none
  | some r6 =>
  match parseHourField r6 with
  | none => none
  | some (hh, r7) =>
  match expectChar ':' r7 with
  | none => none
  | some r8 =>
  match parseMinuteField r8 with
  | none => none
  | some (mm, r9) =>
  if r9.isEmpty && validDate y m d then some ⟨y, m, d, hh, mm⟩ else none

/-- Model of `datetime.strptime(s, "%Y-%m-%d %H:%M:%S")`; the sources only
feed it the output of `strftime("%Y-%m-%d %H:%M:%S")`, whose second field is
always `"00"`, so the parsed second is checked to be zero and dropped. -/
def parseYmdHMS (cs : List Char) : Option DateTime :=
  match parseYear4 cs with
  | none => none
  | some (y, r1) =>
  match expectChar '-' r1 with
  | none => none
  | some r2 =>
  match parseMonthField r2 with
  | none => none
  | some (m, r3) =>
  match expectChar '-' r3 with
  | none => none
  | some r4 =>
  match parseDayField r4 with
  | none => none
  | some (d, r5) =>
  match expectSpaces r5 with
  | none => none
  | some r6 =>
  match parseHourField r6 with
  | none => none
  | some (hh, r7) =>
  match expectChar ':' r7 with
  | none => none
  | some r8 =>
  match parseMinuteField r8 with
  | none => none
  | some (mm, r9) =>
  match expectChar ':' r9 with
  | none => none
  | some r10 =>
  match parseMinuteField r10 with
  | none => none
  | some (ss, r11) =>
  if r11.isEmpty && ss == 0 && validDate y m d then some ⟨y, m, d, hh, mm⟩ else none

/-! ## `datetime.fromisoformat` model

`link_notification_pair` reads `date_received` back with
`datetime.fromisoformat`.  The pipeline stores `strftime("%Y-%m-%d")` strings
there (date only, parsed back as midnight); the repository's tests also store
`"YYYY-MM-DD HH:MM:SS"` strings.  Both shapes are modelled (zero-padded
two-digit fields, as ISO 8601 requires); any other string raises `ValueError`
in the source, which the caller's `except` turns into a failed link, and is
modelled as `none`.  The result is returned as whole seconds since the epoch
of the model, which is exactly the quantity whose differences
`timedelta.total_seconds()` computes. -/

/-- Strict two-digit field of an ISO 8601 string. -/
def parse2dig : List Char → Option (Nat × List Char)
  | c1 :: c2 :: rest =>
    if isDigitCh c1 && isDigitCh c2 then some ((c1.toNat - 48) * 10 + (c2.toNat - 48), rest)
    else none
  | _ => none

/-- Date part `YYYY-MM-DD` of an ISO 8601 string. -/
def parseIsoDate (cs : List Char) : Option (Date × List Char) :=
  match parseYear4 cs with
  | none => none
  | some (y, r1) =>
  match expectChar '-' r1 with
  | none => none
  | some r2 =>
  match parse2dig r2 with
  | none => none
  | some (m, r3) =>
  match expectChar '-' r3 with
  | none => none
  | some r4 =>
  match parse2dig r4 with
  | none => none
  | some (d, r5) =>
  if 1 ≤ m && m ≤ 12 && validDate y m d then some (⟨y, m, d⟩, r5) else none

/-- Model of `datetime.fromisoformat`, in seconds since the model epoch. -/
def fromisoformatSeconds (cs : List Char) : Option Int :=
  match parseIsoDate cs with
  | none => none
  | some (d, rest) =>
    match rest with
    | [] => some ((86400 * daysFromCivil d : Nat) : Int)
    | sep :: r1 =>
      if sep == ' ' || sep == 'T' then
        match parse2dig r1 with
        | none => none
        | some (hh, r2) =>
        match expectChar ':' r2 with
        | none => none
        | some r3 =>
        match parse2dig r3 with
        | none => none
        | some (mm, r4) =>
        match r4 with
        | [] =>
          if hh ≤ 23 && mm ≤ 59 then
            some ((86400 * daysFromCivil d + 3600 * hh + 60 * mm : Nat) : Int)
          else none
        | c :: r5 =>
          if c == ':' then
            match parse2dig r5 with
            | none => none
            | some (ss, r6) =>
              if r6.isEmpty && hh ≤ 23 && mm ≤ 59 && ss ≤ 59 then
                some ((86400 * daysFromCivil d + 3600 * hh + 60 * mm + ss : Nat) : Int)
              else none
          else none
      else none

/-- Truncation toward zero of `a / 60`, the value of Python's
`int(total_seconds / 60)` (`total_seconds` is exact here: every involved
instant has whole seconds and magnitudes far below 2^53). -/
def intTruncDiv60 (a : Int) : Int :=
  if 0 ≤ a then ((a.toNat / 60 : Nat) : Int) else -(((-a).toNat / 60 : Nat) : Int)

/-! ## Text extractor — `SimpleORBCOMMParser.parse_text` (src/orbcomm_processor.py)

The embedded record carries the fields the claims under verification touch:
`reference_number`, `date_received`, `time_received`, `platform`,
`event_type`, `status` and the three incident fields.  The remaining output
keys (`summary`, `scheduled_date`, `scheduled_time`, `duration`,
`affected_services`, `subject`) are pure pattern extractions from
`(text, subject)` alone (source lines 117-173) and are not referenced by any
claim. -/

structure ParsedNotification where
  reference_number : String
  date_received : String
  time_received : String
  platform : String
  event_type : String
  status : String
  incident_start_time : Option String
  incident_end_time : Option String
  incident_duration_minutes : Option Int
deriving DecidableEq, Repr

/-- Model of `re.search(r"([A-Z]-\d{6})", subject)` tried at one position. -/
def refMatchAt : List Char → Option (List Char)
  | c0 :: c1 :: c2 :: c3 :: c4 :: c5 :: c6 :: c7 :: _ =>
    if 65 ≤ c0.toNat && c0.toNat ≤ 90 && c1 == '-' && isDigitCh c2 && isDigitCh c3 &&
       isDigitCh c4 && isDigitCh c5 && isDigitCh c6 && isDigitCh c7 then
      some [c0, c1, c2, c3, c4, c5, c6, c7]
    else none
  | _ => none

/-- Leftmost match of the reference-number pattern (source lines 81-83). -/
def searchRef : List Char → Option (List Char)
  | [] => none
  | c :: rest =>
    match refMatchAt (c :: rest) with
    | some m => some m
    | none => searchRef rest

/-- Status derivation from the subject line (source lines 86-94): the
`resolved`/`completed`/`restored` scan, then an `elif` on `"open"`, then an
`elif` on `"continuing"`; the record is initialised to `"Open"` and the whole
subject block is skipped for an empty subject. -/
def statusFromSubject (subject : String) : String :=
  if subject.data.isEmpty then "Open"
  else
    let low := subject.data.map pyLower
    if containsStr ("resolved".data) low || containsStr ("completed".data) low ||
       containsStr ("restored".data) low then "Resolved"
    else if containsStr ("open".data) low then "Open"
    else if containsStr ("continuing".data) low then "Continuing"
    else "Open"

/-- Platform keywords in the raw (case-sensitive) subject, source lines 97-102. -/
def subjectPlatform (subj : List Char) : String :=
  if containsStr ("IDP".data) subj then "IDP"
  else if containsStr ("OGx".data) subj || containsStr ("OGX".data) subj then "OGx"
  else if containsStr ("OGWS".data) subj then "OGWS"
  else ""

/-- Body line loop (source lines 105-115) restricted to the `platform:` and
`event:` branches; the `summary:` branch only feeds the fields outside the
embedded record.  Each matching line overwrites the running value, so the last
matching line wins, and the initial platform comes from the subject. -/
def bodyPlatformEvent : List (List Char) → String → String → String × String
  | [], p, e => (p, e)
  | line :: rest, p, e =>
    let l := stripChars line
    let low := l.map pyLower
    if beginsWith ("platform:".data) low then
      bodyPlatformEvent rest (String.mk (stripChars (afterFirstColon l))) e
    else if beginsWith ("event:".data) low then
      bodyPlatformEvent rest p (String.mk (stripChars (afterFirstColon l)))
    else bodyPlatformEvent rest p e

/-- Markers of the incident-time regexes (source lines 181 and 207). -/
def startTimeMarker : List Char := "<b>Start Time:</b>".data

/-- End-time marker. -/
def endTimeMarker : List Char := "<b>End Time:</b>".data

/-- One attempt of `marker` + `\s*` + `&nbsp;` + `([^<]+)` at the head of
`cs` (the `\s*` needs no backtracking: whitespace can never match `&`). -/
def matchMarkerAt (marker cs : List Char) : Option (List Char) :=
  if beginsWith marker cs then
    let afterWs := (cs.drop marker.length).dropWhile isSpaceCh
    if beginsWith ("&nbsp;".data) afterWs then
      let cap := (afterWs.drop 6).takeWhile (fun c => !(c == '<'))
      if cap.isEmpty then none else some cap
    else none
  else none

/-- Leftmost match of the incident-time regex, returning capture group 1. -/
def searchMarker (marker : List Char) : List Char → Option (List Char)
  | [] => none
  | c :: rest =>
    match matchMarkerAt marker (c :: rest) with
    | some cap => some cap
    | none => searchMarker marker rest

/-- Incident timestamp extraction for one marker: regex search, `strip()`,
`replace(" GMT", "")`, then `strptime("%Y-%m-%d %H:%M")`; a parse failure is
caught and yields `None` (source lines 181-228). -/
def extractIncidentTime (marker text : List Char) : Option DateTime :=
  match searchMarker marker text with
  | some cap => parseYmdHM (replaceGMT (stripChars cap))
  | none => none

/-! ## `email.utils.parsedate_to_datetime` model

`parse_text` uses it on the optional `email_date` argument and falls back to
`datetime.now()` when it raises.  The model accepts the standard RFC 2822
shape the mail client delivers — optional weekday token (ending in a comma or
matching a day name), day, English month name, four-digit year, `HH:MM[:SS]`
time, optional zone token — and treats the obsolete alternative forms the
Python function also tolerates as parse failures, which only widens the
fallback case.  The zone offset never reaches the output: the source prints
the parsed datetime's own clock fields with `strftime`, without conversion. -/

/-- Accumulator pass of `data.split()`: `acc` holds the current token in
reverse. -/
def splitWsAux : List Char → List Char → List (List Char)
  | [], acc => if acc.isEmpty then [] else [acc.reverse]
  | c :: rest, acc =>
    if isSpaceCh c then
      (if acc.isEmpty then splitWsAux rest [] else acc.reverse :: splitWsAux rest [])
    else splitWsAux rest (c :: acc)

/-- Tokens of `data.split()` (split on whitespace runs, no empty tokens). -/
def splitWsTokens (cs : List Char) : List (List Char) := splitWsAux cs []

/-- Lower-cased three-letter month names, index = month number - 1. -/
def monthNames : List (List Char) :=
  ["jan".data, "feb".data, "mar".data, "apr".data, "may".data, "jun".data,
   "jul".data, "aug".data, "sep".data, "oct".data, "nov".data, "dec".data]

/-- Lower-cased day names recognised for the optional leading weekday token. -/
def dayNames : List (List Char) :=
  ["mon".data, "tue".data, "wed".data, "thu".data, "fri".data, "sat".data, "sun".data]

/-- Month number of a (lower-cased) month-name token. -/
def monthIndex (tok : List Char) : Option Nat :=
  match (monthNames.indexOf? tok) with
  | some i => some (i + 1)
  | none => none

/-- All-digit token of length 1 or 2 read as a number. -/
def parseDayToken : List Char → Option Nat
  | [c] => if isDigitCh c then some (c.toNat - 48) else none
  | [c1, c2] =>
    if isDigitCh c1 && isDigitCh c2 then some ((c1.toNat - 48) * 10 + (c2.toNat - 48)) else none
  | _ => none

/-- Time token `HH:MM` or `HH:MM:SS` with two-digit fields. -/
def parseTimeToken (tok : List Char) : Option (Nat × Nat) :=
  match parse2dig tok with
  | none => none
  | some (hh, r1) =>
  match expectChar ':' r1 with
  | none => none
  | some r2 =>
  match parse2dig r2 with
  | none => none
  | some (mm, r3) =>
    match r3 with
    | [] => if hh ≤ 23 && mm ≤ 59 then some (hh, mm) else none
    | c :: r4 =>
      if c == ':' then
        match parse2dig r4 with
        | none => none
        | some (ss, r5) =>
          if r5.isEmpty && hh ≤ 23 && mm ≤ 59 && ss ≤ 59 then some (hh, mm) else none
      else none

/-- Model of `parsedate_to_datetime` (see the section comment). -/
def parsedate_to_datetime (cs : List Char) : Option DateTime :=
  let tokens := splitWsTokens cs
  let tokens :=
    match tokens with
    | t :: rest =>
      if (match t.getLast? with | some c => c == ',' | none => false) ||
         dayNames.contains (t.map pyLower) then rest
      else tokens
    | [] => []
  match tokens with
  | dayTok :: monTok :: yearTok :: timeTok :: _ =>
    (match parseDayToken dayTok, monthIndex (monTok.map pyLower),
           parseYear4 yearTok, parseTimeToken timeTok with
     | some d, some m, some (y, []), some (hh, mm) =>
       if validDate y m d then some ⟨y, m, d, hh, mm⟩ else none
     | _, _, _, _ => none)
  | _ => none

/-- Model of `SimpleORBCOMMParser.parse_text` over the embedded fields.  The
extra argument `now` is the processing-time clock `datetime.now()` the source
reads when `email_date` is absent or fails to parse (lines 41-57). -/
def parse_text (text subject : String) (email_date : Option String) (now : DateTime) :
    ParsedNotification :=
  let recvDt : DateTime :=
    match email_date with
    | some d =>
      (match parsedate_to_datetime d.data with
       | some dt => dt
       | none => now)
    | none => now
  let date_str := String.mk (fmtDateYmd recvDt)
  let time_str := String.mk (fmtTimeHM recvDt)
  let subj := subject.data
  let reference_number : String :=
    if subj.isEmpty then ""
    else match searchRef subj with
         | some m => String.mk m
         | none => ""
  let status := statusFromSubject subject
  let subjPlat : String := if subj.isEmpty then "" else subjectPlatform subj
  let pe := bodyPlatformEvent (splitOnNewline text.data) subjPlat ""
  let incidentStartDt : Option DateTime :=
    if status = "Resolved" then extractIncidentTime startTimeMarker text.data else none
  let incidentEndDt : Option DateTime :=
    if status = "Resolved" then extractIncidentTime endTimeMarker text.data else none
  let incident_start_time := incidentStartDt.map (fun dt => String.mk (fmtYmdHMS dt))
  let incident_end_time := incidentEndDt.map (fun dt => String.mk (fmtYmdHMS dt))
  let incident_duration_minutes : Option Int :=
    match incident_start_time, incident_end_time with
    | some s, some e =>
      (match parseYmdHMS s.data, parseYmdHMS e.data with
       | some sdt, some edt => some (minutesSinceEpoch edt - minutesSinceEpoch sdt)
       | _, _ => none)
    | _, _ => none
  { reference_number := reference_number
    date_received := date_str
    time_received := time_str
    platform := pe.1
    event_type := pe.2
    status := status
    incident_start_time := incident_start_time
    incident_end_time := incident_end_time
    incident_duration_minutes := incident_duration_minutes }

/-! ## Notification store — src/orbcomm_tracker/database.py

One notification row, restricted to the columns the verified operations read
or write.  `date_received` and `time_received` hold the strings the pipeline
inserts (`parse_text`'s `"%Y-%m-%d"` and `"%H:%M"` values; the tests insert
full `"%Y-%m-%d %H:%M:%S"` strings into `date_received`, which the model also
supports through `fromisoformatSeconds`).  `resolution_date` is stored as the
instant (in model seconds) denoted by the `resolved_dt.isoformat()` string the
source writes. -/

structure DbNotification where
  id : Nat
  gmail_message_id : String
  reference_number : String
  inbox_source : String
  date_received : String
  time_received : String
  status : String
  incident_duration_minutes : Option Int
  resolution_date : Option Int
  time_to_resolve_minutes : Option Int
deriving DecidableEq, Repr

/-- One row of `notification_pairs` (columns written by
`link_notification_pair`); `reference_number` is UNIQUE in the schema. -/
structure NotificationPair where
  reference_number : String
  open_notification_id : Nat
  resolved_notification_id : Nat
  time_to_resolve_minutes : Int
  incident_duration_minutes : Option Int
deriving DecidableEq, Repr

/-- Database state: the two tables plus the AUTOINCREMENT counter (SQLite
row ids start at 1, so a stored id is never the falsy `0`). -/
structure DbState where
  nextId : Nat
  notifications : List DbNotification
  pairs : List NotificationPair
deriving DecidableEq, Repr

/-- Empty database after `_initialize_schema`. -/
def emptyDb : DbState := ⟨1, [], []⟩

/-- Insertable field set of `insert_notification` (the dictionary keys the
INSERT statement reads, restricted to the modelled columns). -/
structure NotificationData where
  gmail_message_id : String
  reference_number : String
  inbox_source : String
  date_received : String
  time_received : String
  status : String
  incident_duration_minutes : Option Int
deriving DecidableEq, Repr

/-- Row created for `data` with fresh id `i`. -/
def mkRow (i : Nat) (data : NotificationData) : DbNotification :=
  { id := i
    gmail_message_id := data.gmail_message_id
    reference_number := data.reference_number
    inbox_source := data.inbox_source
    date_received := data.date_received
    time_received := data.time_received
    status := data.status
    incident_duration_minutes := data.incident_duration_minutes
    resolution_date := none
    time_to_resolve_minutes := none }

/-- Model of `Database.insert_notification` (source lines 236-291): the INSERT
violates the UNIQUE constraint on `gmail_message_id` when a row with the same
value exists; the raised `IntegrityError` is caught and `None` returned with
no new row; otherwise the row is appended and its fresh id returned. -/
def insert_notification (st : DbState) (data : NotificationData) : Option Nat × DbState :=
  if st.notifications.any (fun n => n.gmail_message_id == data.gmail_message_id) then
    (none, st)
  else
    (some st.nextId,
     { st with
        nextId := st.nextId + 1
        notifications := st.notifications ++ [mkRow st.nextId data] })

/-- Rows of one reference number in the order of
`SELECT ... WHERE reference_number = ? ORDER BY date_received` — a stable sort
on the TEXT column's byte order (zero-padded ISO strings sort
chronologically; ties keep insertion order, the scan order of the table). -/
def rowsForRef (st : DbState) (ref : String) : List DbNotification :=
  List.insertionSort (fun a b => lexLe a.date_received.data b.date_received.data = true)
    (st.notifications.filter (fun n => n.reference_number == ref))

/-- Row effect of `UPDATE notifications SET resolution_date = ?,
time_to_resolve_minutes = ? WHERE id = ?` (source lines 433-440). -/
def applyResolutionUpdate (rid : Nat) (sr ttr : Int) (n : DbNotification) : DbNotification :=
  if n.id == rid then { n with resolution_date := some sr, time_to_resolve_minutes := some ttr }
  else n

/-- Row effect of `UPDATE notifications SET status = 'Resolved' WHERE
reference_number = ? AND status IN ('Open', 'Continuing')` (source lines
443-451). -/
def applyStatusFlip (ref : String) (n : DbNotification) : DbNotification :=
  if n.reference_number == ref && (n.status == "Open" || n.status == "Continuing") then
    { n with status := "Resolved" }
  else n

/-- Model of `Database.link_notification_pair` (source lines 369-459).  The
anchor scan (`if status == "Open" and not open_notif ... elif status ==
"Resolved" and not resolved_notif`) keeps the first Open row and the first
Resolved row of the ordered result set, i.e. `find?` on each status.  A
`ValueError` from `fromisoformat` is caught by the surrounding `except` and
returns `False` before any write. -/
def link_notification_pair (st : DbState) (ref : String) : Bool × DbState :=
  let rows := rowsForRef st ref
  if rows.length < 2 then (false, st)
  else
    match rows.find? (fun n => n.status == "Open"),
          rows.find? (fun n => n.status == "Resolved") with
    | some o, some r =>
      (match fromisoformatSeconds o.date_received.data,
             fromisoformatSeconds r.date_received.data with
       | some so, some sr =>
         let ttr := intTruncDiv60 (sr - so)
         let pair : NotificationPair :=
           { reference_number := ref
             open_notification_id := o.id
             resolved_notification_id := r.id
             time_to_resolve_minutes := ttr
             incident_duration_minutes := r.incident_duration_minutes }
         let pairs' := st.pairs.filter (fun q => !(q.reference_number == ref)) ++ [pair]
         let notifs' :=
           st.notifications.map (fun n => applyStatusFlip ref (applyResolutionUpdate r.id sr ttr n))
         (true, { st with notifications := notifs', pairs := pairs' })
       | _, _ => (false, st))
    | _, _ => (false, st)

/-! ## Batch reconciler — src/orbcomm_tracker/parser.py and sync.py -/

/-- Batch result counters of `parse_and_store_batch`. -/
structure BatchCounts where
  stored : Nat
  duplicates : Nat
  errors : Nat
deriving DecidableEq, Repr

/-- Outcome of the store interaction inside one `parse_and_store` call, seen
from the classification logic: the INSERT succeeded with a row id; or
`insert_notification` returned `None` because the `gmail_message_id` already
existed (`IntegrityError`); or it returned `None` / raised for any other
reason (the generic `except` branches of `insert_notification` and
`parse_and_store` — transaction or connection failure, constraint violations
other than the dedup key).  Extraction itself (`parse_text`) never raises. -/
inductive StoreOutcome where
  | inserted (id : Nat)
  | duplicateKey
  | otherFailure
deriving DecidableEq, Repr

/-- Model of `ORBCOMMParser.parse_and_store` (source lines 33-77) as a
function of the store's responses: `alreadyStored` is the result of the
`get_notification_by_gmail_id` pre-check, `outcome` the insert interaction.
Every exception inside the body is caught by `except Exception` and turned
into `None`, so the function never raises. -/
def parse_and_store_result (alreadyStored : Bool) (outcome : StoreOutcome) : Option Nat :=
  if alreadyStored then none
  else
    match outcome with
    | StoreOutcome.inserted i => some i
    | StoreOutcome.duplicateKey => none
    | StoreOutcome.otherFailure => none

/-- Model of `ORBCOMMParser.parse_and_store_batch` (source lines 79-107): the
loop body increments `stored` on a truthy id and `duplicates` otherwise; the
`except` arm incrementing `errors` is only reachable when `parse_and_store`
raises, which it never does. -/
def parse_and_store_batch_result : List (Bool × StoreOutcome) → BatchCounts
  | [] => ⟨0, 0, 0⟩
  | e :: rest =>
    let c := parse_and_store_batch_result rest
    match parse_and_store_result e.1 e.2 with
    | some _ => { c with stored := c.stored + 1 }
    | none => { c with duplicates := c.duplicates + 1 }

/-- Raw email record as delivered by the mail client to `parse_and_store`. -/
structure RawEmail where
  message_id : String
  subject : String
  body : String
  date_received : Option String
deriving DecidableEq, Repr

/-- Model of `ORBCOMMParser.parse_and_store` against the concrete store model:
parse the email, skip it when a row with its `gmail_message_id` exists,
otherwise insert the parsed record with the batch's `inbox_source`. -/
def parse_and_store_db (st : DbState) (e : RawEmail) (source : String) (now : DateTime) :
    Option Nat × DbState :=
  let parsed := parse_text e.body e.subject e.date_received now
  if st.notifications.any (fun n => n.gmail_message_id == e.message_id) then (none, st)
  else
    insert_notification st
      { gmail_message_id := e.message_id
        reference_number := parsed.reference_number
        inbox_source := source
        date_received := parsed.date_received
        time_received := parsed.time_received
        status := parsed.status
        incident_duration_minutes := parsed.incident_duration_minutes }

/-- Model of `ORBCOMMParser.parse_and_store_batch` over the concrete store
(the pure store cannot fail, so every non-stored email is a duplicate). -/
def parse_and_store_batch_db (source : String) (now : DateTime) :
    DbState → List RawEmail → BatchCounts × DbState
  | st, [] => (⟨0, 0, 0⟩, st)
  | st, e :: rest =>
    match parse_and_store_db st e source now with
    | (some _, st') =>
      let (c, st'') := parse_and_store_batch_db source now st' rest
      ({ c with stored := c.stored + 1 }, st'')
    | (none, st') =>
      let (c, st'') := parse_and_store_batch_db source now st' rest
      ({ c with duplicates := c.duplicates + 1 }, st'')

/-- Reference numbers of the records the batch actually stored (the claim's
"reference numbers touched by a stored (non-duplicate) record"), computed
along the same state evolution as `parse_and_store_batch_db`. -/
def storedRefsOfBatch (source : String) (now : DateTime) :
    DbState → List RawEmail → List String
  | _, [] => []
  | st, e :: rest =>
    match parse_and_store_db st e source now with
    | (some _, st') =>
      (parse_text e.body e.subject e.date_received now).reference_number ::
        storedRefsOfBatch source now st' rest
    | (none, st') => storedRefsOfBatch source now st' rest

/-- First-occurrence deduplication, the model of `SELECT DISTINCT`. -/
def dedupStr : List String → List String
  | [] => []
  | s :: rest => s :: (dedupStr rest).filter (fun x => !(x == s))

/-- Reference numbers `link_all_pairs` iterates over (source lines 136-147):
every distinct `reference_number` stored for the inbox source, not only those
touched by the current batch. -/
def invokedRefs (st : DbState) (source : String) : List String :=
  dedupStr ((st.notifications.filter (fun n => n.inbox_source == source)).map
    (fun n => n.reference_number))

/-- Model of `ORBCOMMParser.link_all_pairs` (source lines 125-159): run the
pairing engine over `invokedRefs`, threading the store and counting `True`
results. -/
def link_all_pairs (st : DbState) (source : String) : Nat × DbState :=
  (invokedRefs st source).foldl
    (fun acc ref =>
      let (ok, st') := link_notification_pair acc.2 ref
      (acc.1 + (if ok then 1 else 0), st'))
    (0, st)

/-- Pairing phase of `SyncOrchestrator.sync` (source lines 98-102): the engine
runs only when the batch stored at least one record, and `pairs_linked` is the
count of `True` results. -/
def sync_link_phase (st : DbState) (counts : BatchCounts) (source : String) : Nat × DbState :=
  if 0 < counts.stored then link_all_pairs st source else (0, st)

/-! ## Auxiliary definitions used by the statements -/

/-- Pair rows recorded for one reference number. -/
def pairsFor (st : DbState) (ref : String) : List NotificationPair :=
  st.pairs.filter (fun q => q.reference_number == ref)

/-- Uniqueness invariant of the `gmail_message_id` column (UNIQUE NOT NULL in
the schema): no two rows share an external id. -/
def UniqueIds (st : DbState) : Prop :=
  st.notifications.Pairwise (fun a b => a.gmail_message_id ≠ b.gmail_message_id)

/-- Sequence of `insert_notification` calls. -/
def insertBatch : DbState → List NotificationData → DbState
  | st, [] => st
  | st, d :: rest => insertBatch (insert_notification st d).2 rest

/-- Discriminator for the successful-insert outcome. -/
def StoreOutcome.isInserted : StoreOutcome → Bool
  | StoreOutcome.inserted _ => true
  | _ => false

/-- Claim-side reading (refinement comparator for C1): the full receipt
timestamp of a row, minutes since the model epoch, combining the stored
receipt date with the stored `time_received` clock time — the quantity the
claim says `time_to_resolve_minutes` is computed from. -/
def claimFullReceiptMinutes (n : DbNotification) : Option Int :=
  match parseIsoDate n.date_received.data, parseTimeToken n.time_received.data with
  | some (d, []), some (h, m) => some ((daysFromCivil d * 1440 + h * 60 + m : Nat) : Int)
  | _, _ => none

/-- Claim-side status rule (refinement comparator for C7): Resolved on
`resolved`/`completed`/`restored`; otherwise Continuing on `continuing`;
otherwise Open — with no precedence for an `open` keyword. -/
def claimStatusRule (subject : String) : String :=
  let low := subject.data.map pyLower
  if containsStr ("resolved".data) low || containsStr ("completed".data) low ||
     containsStr ("restored".data) low then "Resolved"
  else if containsStr ("continuing".data) low then "Continuing"
  else "Open"

/-! ## Concrete fixtures for the closed statements -/

/-- Fixed processing-time clock instant. -/
def now0 : DateTime := ⟨2025, 11, 1, 12, 0⟩

/-- Second, distinct clock instant. -/
def now1 : DateTime := ⟨2025, 11, 2, 8, 30⟩

/-- Open notification received 2024-10-29 at 10:30 (as the pipeline stores
it: date-only `date_received`, clock time in `time_received`). -/
def exRowOpen : DbNotification :=
  { id := 1, gmail_message_id := "msg-open-1", reference_number := "S-000001"
    inbox_source := "inbox2_continuous", date_received := "2024-10-29"
    time_received := "10:30", status := "Open", incident_duration_minutes := none
    resolution_date := none, time_to_resolve_minutes := none }

/-- Resolved notification for the same reference number, received the same
day at 12:45. -/
def exRowResolved : DbNotification :=
  { id := 2, gmail_message_id := "msg-res-2", reference_number := "S-000001"
    inbox_source := "inbox2_continuous", date_received := "2024-10-29"
    time_received := "12:45", status := "Resolved", incident_duration_minutes := some 95
    resolution_date := none, time_to_resolve_minutes := none }

/-- Store holding the Open/Resolved pair above. -/
def exPairState : DbState := ⟨3, [exRowOpen, exRowResolved], []⟩

/-- Subject of the S-003141 resolved notification (fixture of the
repository's own test suite). -/
def exSubj : String := "ORBCOMM Service Notification [S-003141] IDP - RESOLVED"

/-- Body of the S-003141 resolved notification. -/
def exBody : String :=
  "<html><body>\n<p><b>Platform:</b>&nbsp;IDP</p>\n<p><b>Status:</b>&nbsp;Resolved</p>\n<p><b>Start Time:</b>&nbsp;2025-10-22 15:05 GMT</p>\n<p><b>End Time:</b>&nbsp;2025-10-23 00:37 GMT</p>\n</body></html>"

/-- Resolved body whose start time is present but malformed and whose end
time parses (fixture of the repository's test suite). -/
def exBodyMalformedStart : String :=
  "<p><b>Status:</b>&nbsp;Resolved</p>\n<p><b>Start Time:</b>&nbsp;INVALID FORMAT</p>\n<p><b>End Time:</b>&nbsp;2025-10-20 14:00 GMT</p>"

/-- Resolved body whose start-time marker is followed directly by the
timestamp, with no `&nbsp;` entity. -/
def exBodyNoNbsp : String := "<b>Start Time:</b> 2025-10-22 15:05 GMT"

/-- Same body with the `&nbsp;` entity present. -/
def exBodyWithNbsp : String := "<b>Start Time:</b>&nbsp;2025-10-22 15:05 GMT"

/-- Store with a previously ingested notification of reference number
A-000001 from the same inbox source. -/
def exC4State : DbState :=
  ⟨2,
   [{ id := 1, gmail_message_id := "old-msg", reference_number := "A-000001"
      inbox_source := "inbox2_continuous", date_received := "2024-01-05"
      time_received := "09:00", status := "Open", incident_duration_minutes := none
      resolution_date := none, time_to_resolve_minutes := none }],
   []⟩

/-- Batch of one new raw email touching only reference number B-000002. -/
def exC4Batch : List RawEmail :=
  [{ message_id := "new-msg"
     subject := "ORBCOMM Service Notification (Reference#: B-000002) - Open"
     body := "Platform: IDP"
     date_received := some "Tue, 29 Oct 2024 10:30:45 -0700" }]

/-- Store with one row, for the duplicate-insert witness. -/
def exC9State : DbState := ⟨2, [exRowOpen], []⟩

/-- Insert payload re-using the external id already present in `exC9State`. -/
def exC9DupData : NotificationData :=
  { gmail_message_id := "msg-open-1", reference_number := "S-000009"
    inbox_source := "inbox2_continuous", date_received := "2024-11-02"
    time_received := "08:00", status := "Open", incident_duration_minutes := none }

/-! ## Helper lemmas: formatting / parsing round trips -/

theorem data_mk (l : List Char) : (String.mk l).data = l := rfl

theorem digitChar_toNat (k : Nat) (hk : k < 10) : (digitChar k).toNat = 48 + k := by
  interval_cases k <;> rfl

theorem isSpaceCh_digitChar (k : Nat) (hk : k < 10) : isSpaceCh (digitChar k) = false := by
  interval_cases k <;> rfl

theorem expectChar_cons (c : Char) (r : List Char) : expectChar c (c :: r) = some r := by
  simp [expectChar]

theorem parseYear4_fmt4 (y : Nat) (hy : y ≤ 9999) (rest : List Char) :
    parseYear4 (fmt4 y ++ rest) = some (y, rest) := by
  have h9 : ∀ k : Nat, k % 10 < 10 := fun k => Nat.mod_lt _ (by norm_num)
  have e0 := digitChar_toNat (y / 1000 % 10) (h9 _)
  have e1 := digitChar_toNat (y / 100 % 10) (h9 _)
  have e2 := digitChar_toNat (y / 10 % 10) (h9 _)
  have e3 := digitChar_toNat (y % 10) (h9 _)
  simp only [fmt4, List.cons_append, List.nil_append, parseYear4, isDigitCh, e0, e1, e2, e3]
  rw [if_pos]
  · simp only [Option.some.injEq, Prod.mk.injEq]
    exact ⟨by omega, trivial⟩
  · simp only [Bool.and_eq_true, decide_eq_true_eq]
    omega

theorem parse2dig_fmt2 (v : Nat) (hv : v ≤ 99) (rest : List Char) :
    parse2dig (fmt2 v ++ rest) = some (v, rest) := by
  have h9 : ∀ k : Nat, k % 10 < 10 := fun k => Nat.mod_lt _ (by norm_num)
  have e0 := digitChar_toNat (v / 10 % 10) (h9 _)
  have e1 := digitChar_toNat (v % 10) (h9 _)
  simp only [fmt2, List.cons_append, List.nil_append, parse2dig, isDigitCh, e0, e1]
  rw [if_pos]
  · simp only [Option.some.injEq, Prod.mk.injEq]
    exact ⟨by omega, trivial⟩
  · simp only [Bool.and_eq_true, decide_eq_true_eq]
    omega

theorem parseMonthField_fmt2 (m : Nat) (h1 : 1 ≤ m) (h2 : m ≤ 12) (rest : List Char) :
    parseMonthField (fmt2 m ++ rest) = some (m, rest) := by
  interval_cases m <;> rfl

theorem parseDayField_fmt2 (d : Nat) (h1 : 1 ≤ d) (h2 : d ≤ 31) (rest : List Char) :
    parseDayField (fmt2 d ++ rest) = some (d, rest) := by
  interval_cases d <;> rfl

theorem parseHourField_fmt2 (h : Nat) (h2 : h ≤ 23) (rest : List Char) :
    parseHourField (fmt2 h ++ rest) = some (h, rest) := by
  interval_cases h <;> rfl

theorem parseMinuteField_fmt2 (m : Nat) (h2 : m ≤ 59) (rest : List Char) :
    parseMinuteField (fmt2 m ++ rest) = some (m, rest) := by
  interval_cases m <;> rfl

theorem dropWhileSpace_fmt2 (v : Nat) (rest : List Char) :
    List.dropWhile isSpaceCh (fmt2 v ++ rest) = fmt2 v ++ rest := by
  have h := isSpaceCh_digitChar (v / 10 % 10) (Nat.mod_lt _ (by norm_num))
  simp [fmt2, List.dropWhile_cons, h]

theorem validDate_of_valid (dt : DateTime) (hv : dt.Valid) :
    validDate dt.year dt.month dt.day = true := by
  obtain ⟨h1, h2, _, _, h5, h6, _, _⟩ := hv
  simp only [validDate, Bool.and_eq_true, decide_eq_true_eq]
  exact ⟨⟨⟨h1, h2⟩, h5⟩, h6⟩

theorem expectSpaces_space (r : List Char) (h : List.dropWhile isSpaceCh r = r) :
    expectSpaces (' ' :: r) = some r := by
  simp only [expectSpaces]
  rw [if_pos (show isSpaceCh ' ' = true from rfl), h]

theorem parseMinuteField_zeros (r : List Char) : parseMinuteField (':' :: '0' :: '0' :: r) = none := rfl

/-- Round trip: re-parsing the formatted `"%Y-%m-%d %H:%M:%S"` string of a
valid datetime (as the duration computation in `parse_text` does) recovers the
datetime. -/
theorem parseYmdHMS_fmt (dt : DateTime) (hv : dt.Valid) :
    parseYmdHMS (fmtYmdHMS dt) = some dt := by
  obtain ⟨h1, h2, h3, h4, h5, h6, h7, h8⟩ := hv
  have hd31 : dt.day ≤ 31 := by
    have : monthLength (isLeapYear dt.year) dt.month ≤ 31 := by
      unfold monthLength; split <;> [split; split] <;> omega
    omega
  have hws := expectSpaces_space (fmt2 dt.hour ++ ':' :: (fmt2 dt.minute ++ [':', '0', '0']))
    (dropWhileSpace_fmt2 dt.hour _)
  have hvd := validDate_of_valid dt ⟨h1, h2, h3, h4, h5, h6, h7, h8⟩
  simp only [fmtYmdHMS, fmtDateYmd, fmtDateOfDate, fmtTimeHM, DateTime.toDate,
    List.append_assoc, List.cons_append, parseYmdHMS,
    parseYear4_fmt4 dt.year h2, expectChar_cons,
    parseMonthField_fmt2 dt.month h3 h4, parseDayField_fmt2 dt.day h5 hd31, hws,
    parseHourField_fmt2 dt.hour h7, parseMinuteField_fmt2 dt.minute h8]
  show (match parseMinuteField ['0', '0'] with
        | none => none
        | some (ss, r11) =>
          if (r11.isEmpty && ss == 0 && validDate dt.year dt.month dt.day) = true then
            some ⟨dt.year, dt.month, dt.day, dt.hour, dt.minute⟩
          else none) = some dt
  rw [show parseMinuteField ['0', '0'] = some (0, []) from rfl]
  simp [hvd]

theorem parseYmdHMS_fmt_of_valid (dt : DateTime) (hv : dt.Valid) :
    parseYmdHMS (String.mk (fmtYmdHMS dt)).data = some dt := by
  rw [data_mk]; exact parseYmdHMS_fmt dt hv

/-! ## Bounds carried by the field parsers -/

theorem parseYear4_bound {cs : List Char} {y : Nat} {r : List Char}
    (h : parseYear4 cs = some (y, r)) : y ≤ 9999 := by
  unfold parseYear4 at h
  split at h
  · rename_i a b c d rest
    split_ifs at h with hc
    simp only [Option.some.injEq, Prod.mk.injEq] at h
    simp only [isDigitCh, Bool.and_eq_true, decide_eq_true_eq] at hc
    omega
  · exact absurd h (by simp)

theorem parseMonthField_bound {cs : List Char} {m : Nat} {r : List Char}
    (h : parseMonthField cs = some (m, r)) : 1 ≤ m ∧ m ≤ 12 := by
  unfold parseMonthField at h
  split at h <;>
    first
      | (split_ifs at h <;>
          simp_all only [Option.some.injEq, Prod.mk.injEq, Bool.and_eq_true,
            decide_eq_true_eq, beq_iff_eq] <;> omega)
      | simp_all

theorem parseHourField_bound {cs : List Char} {v : Nat} {r : List Char}
    (h : parseHourField cs = some (v, r)) : v ≤ 23 := by
  unfold parseHourField at h
  split at h <;>
    first
      | (split_ifs at h <;>
          simp_all only [Option.some.injEq, Prod.mk.injEq, Bool.and_eq_true,
            decide_eq_true_eq, beq_iff_eq] <;> omega)
      | simp_all

theorem parseMinuteField_bound {cs : List Char} {v : Nat} {r : List Char}
    (h : parseMinuteField cs = some (v, r)) : v ≤ 59 := by
  unfold parseMinuteField at h
  split at h <;>
    first
      | (split_ifs at h <;>
          simp_all only [Option.some.injEq, Prod.mk.injEq, Bool.and_eq_true,
            decide_eq_true_eq, beq_iff_eq] <;> omega)
      | simp_all

/-- Every datetime produced by the `"%Y-%m-%d %H:%M"` parser has in-range
fields. -/
theorem parseYmdHM_valid {cs : List Char} {dt : DateTime}
    (h : parseYmdHM cs = some dt) : dt.Valid := by
  unfold parseYmdHM at h
  split at h; · exact absurd h (by simp)
  rename_i y r1 hy
  split at h; · exact absurd h (by simp)
  split at h; · exact absurd h (by simp)
  rename_i m r3 hm
  split at h; · exact absurd h (by simp)
  split at h; · exact absurd h (by simp)
  split at h; · exact absurd h (by simp)
  split at h; · exact absurd h (by simp)
  rename_i hh r7 hhh
  split at h; · exact absurd h (by simp)
  split at h; · exact absurd h (by simp)
  rename_i mm r9 hmm
  split_ifs at h with hcond
  simp only [Option.some.injEq] at h
  simp only [Bool.and_eq_true, List.isEmpty_iff, validDate, decide_eq_true_eq] at hcond
  obtain ⟨hm1, hm2⟩ := parseMonthField_bound hm
  have hhb := parseHourField_bound hhh
  have hmb := parseMinuteField_bound hmm
  subst h
  exact ⟨hcond.2.1.1.1, hcond.2.1.1.2, hm1, hm2, hcond.2.1.2, hcond.2.2, hhb, hmb⟩

/-! ## `fromisoformat` round trip on the pipeline's date strings -/

theorem parseIsoDate_fmtDate (d : Date) (hv : d.Valid) :
    parseIsoDate (fmtDateOfDate d) = some (d, []) := by
  obtain ⟨h1, h2, h3, h4, h5, h6⟩ := hv
  have hm99 : d.month ≤ 99 := by omega
  have hd99 : d.day ≤ 99 := by
    have : monthLength (isLeapYear d.year) d.month ≤ 31 := by
      unfold monthLength; split <;> [split; split] <;> omega
    omega
  have hlast : parse2dig (fmt2 d.day) = some (d.day, []) := by
    simpa using parse2dig_fmt2 d.day hd99 []
  simp only [fmtDateOfDate, List.append_assoc, List.cons_append, parseIsoDate,
    parseYear4_fmt4 d.year h2, expectChar_cons, parse2dig_fmt2 d.month hm99, hlast]
  rw [if_pos]
  simp only [Bool.and_eq_true, decide_eq_true_eq, validDate]
  exact ⟨⟨h3, h4⟩, ⟨⟨⟨h1, h2⟩, h5⟩, h6⟩⟩

theorem fromiso_fmtDate (d : Date) (hv : d.Valid) :
    fromisoformatSeconds (fmtDateOfDate d) = some ((86400 * daysFromCivil d : Nat) : Int) := by
  rw [fromisoformatSeconds, parseIsoDate_fmtDate d hv]

/-- Truncating division by 60 is exact on multiples of 60; this is the value
of `int(total_seconds() / 60)` in the sources. -/
theorem intTruncDiv60_mul (k : Int) : intTruncDiv60 (60 * k) = k := by
  unfold intTruncDiv60
  split <;> omega

/-! ## Helper lemmas: extractor -/

theorem extractIncidentTime_valid {marker text : List Char} {t : DateTime}
    (h : extractIncidentTime marker text = some t) : t.Valid := by
  unfold extractIncidentTime at h
  split at h
  · exact parseYmdHM_valid h
  · exact absurd h (by simp)

theorem beginsWith_append_self (l r : List Char) : beginsWith l (l ++ r) = true := by
  induction l with
  | nil => rfl
  | cons a as ih => simp [beginsWith, ih]

theorem dropWhile_append_of_all {p : Char → Bool} {ws : List Char} (r : List Char)
    (h : ∀ c ∈ ws, p c = true) :
    List.dropWhile p (ws ++ r) = List.dropWhile p r := by
  induction ws with
  | nil => rfl
  | cons a as ih =>
    have ha : p a = true := h a (by simp)
    simp only [List.cons_append, List.dropWhile_cons, ha, if_true]
    exact ih (fun c hc => h c (by simp [hc]))

theorem takeWhile_eq_self_of_all {p : Char → Bool} {ts : List Char}
    (h : ∀ c ∈ ts, p c = true) : List.takeWhile p ts = ts := by
  induction ts with
  | nil => rfl
  | cons a as ih =>
    have ha : p a = true := h a (by simp)
    simp only [List.takeWhile_cons, ha, if_true]
    rw [ih (fun c hc => h c (by simp [hc]))]

/-- A marker immediately followed by optional whitespace, the mandatory
`&nbsp;` entity, and a `<`-free capture matches the incident-time regex at
that position, capturing exactly the text after the entity. -/
theorem matchMarkerAt_exact (marker ws ts : List Char)
    (hws : ∀ c ∈ ws, isSpaceCh c = true)
    (hts : ∀ c ∈ ts, (!(c == '<')) = true)
    (hne : ts ≠ []) :
    matchMarkerAt marker (marker ++ (ws ++ ("&nbsp;".data ++ ts))) = some ts := by
  unfold matchMarkerAt
  rw [if_pos (beginsWith_append_self marker _)]
  rw [List.drop_left]
  rw [dropWhile_append_of_all _ hws]
  rw [show List.dropWhile isSpaceCh ("&nbsp;".data ++ ts) = "&nbsp;".data ++ ts by
    rw [show ("&nbsp;".data ++ ts) = '&' :: ("nbsp;".data ++ ts) from rfl]
    simp [List.dropWhile_cons, isSpaceCh]]
  rw [if_pos (beginsWith_append_self _ _)]
  rw [show ("&nbsp;".data ++ ts).drop 6 = ts from List.drop_left ("&nbsp;".data) ts]
  rw [takeWhile_eq_self_of_all hts]
  rw [if_neg (by simpa [List.isEmpty_iff] using hne)]

theorem searchMarker_cons (marker : List Char) (c : Char) (rest cap : List Char)
    (h : matchMarkerAt marker (c :: rest) = some cap) :
    searchMarker marker (c :: rest) = some cap := by
  simp [searchMarker, h]

/-- Incident-time extraction succeeds on a text that begins with the marker,
optional whitespace, the `&nbsp;` entity, and a parseable capture. -/
theorem extract_marker_head (mc : Char) (mrest ws ts : List Char) (t : DateTime)
    (hws : ∀ c ∈ ws, isSpaceCh c = true)
    (hts : ∀ c ∈ ts, (!(c == '<')) = true)
    (hne : ts ≠ [])
    (hp : parseYmdHM (replaceGMT (stripChars ts)) = some t) :
    extractIncidentTime (mc :: mrest) ((mc :: mrest) ++ (ws ++ ("&nbsp;".data ++ ts))) = some t := by
  have hmatch := matchMarkerAt_exact (mc :: mrest) ws ts hws hts hne
  have hsearch := searchMarker_cons (mc :: mrest) mc (mrest ++ (ws ++ ("&nbsp;".data ++ ts))) ts hmatch
  unfold extractIncidentTime
  rw [← List.cons_append] at hsearch
  rw [hsearch]
  exact hp

/-! ## Helper lemmas: pairing engine -/

theorem applyResolutionUpdate_reference (rid : Nat) (sr ttr : Int) (n : DbNotification) :
    (applyResolutionUpdate rid sr ttr n).reference_number = n.reference_number := by
  unfold applyResolutionUpdate; split <;> rfl

theorem applyStatusFlip_reference (ref : String) (n : DbNotification) :
    (applyStatusFlip ref n).reference_number = n.reference_number := by
  unfold applyStatusFlip; split <;> rfl

/-- After the terminal-state flip, a row of the linked reference number can
never carry status `"Open"` again. -/
theorem applyStatusFlip_status_ne_open (ref : String) (n : DbNotification)
    (href : n.reference_number = ref) :
    ((applyStatusFlip ref n).status == "Open") = false := by
  unfold applyStatusFlip
  split
  · rfl
  · rename_i hc
    simp only [href, beq_self_eq_true, Bool.true_and, Bool.or_eq_true, not_or,
      Bool.not_eq_true] at hc
    exact hc.1

/-- `INSERT OR REPLACE` on the UNIQUE `reference_number` column leaves exactly
the new row for that key. -/
theorem filter_upsert (l : List NotificationPair) (pp : NotificationPair) (ref : String)
    (hp : pp.reference_number = ref) :
    ((l.filter (fun q => !(q.reference_number == ref)) ++ [pp]).filter
      (fun q => q.reference_number == ref)) = [pp] := by
  induction l with
  | nil => simp [List.filter_cons, hp]
  | cons a as ih =>
    by_cases ha : a.reference_number = ref
    · simpa [List.filter_cons, ha] using ih
    · simpa [List.filter_cons, ha] using ih

/-! ## Helper lemmas: store and reconciler -/

theorem insert_preserves_unique (st : DbState) (data : NotificationData) (h : UniqueIds st) :
    UniqueIds (insert_notification st data).2 := by
  unfold insert_notification
  split
  · exact h
  · rename_i hany
    unfold UniqueIds at h ⊢
    simp only []
    rw [List.pairwise_append]
    refine ⟨h, List.pairwise_singleton _ _, ?_⟩
    intro a ha b hb
    simp only [List.mem_singleton] at hb
    subst hb
    intro heq
    exact hany (List.any_eq_true.mpr ⟨a, ha, by simp [mkRow] at heq ⊢; exact heq⟩)

theorem insertBatch_unique : ∀ (batch : List NotificationData) (st : DbState),
    UniqueIds st → UniqueIds (insertBatch st batch)
  | [], _, h => h
  | d :: rest, st, h =>
    insertBatch_unique rest _ (insert_preserves_unique st d h)

theorem insert_dup (st : DbState) (data : NotificationData)
    (h : ∃ n ∈ st.notifications, n.gmail_message_id = data.gmail_message_id) :
    insert_notification st data = (none, st) := by
  unfold insert_notification
  rw [if_pos]
  obtain ⟨n, hn, he⟩ := h
  exact List.any_eq_true.mpr ⟨n, hn, by simp [he]⟩

theorem mem_dedupStr {a : String} : ∀ l : List String, a ∈ l → a ∈ dedupStr l := by
  intro l
  induction l with
  | nil => simp
  | cons s rest ih =>
    intro h
    rcases List.mem_cons.mp h with rfl | hmem
    · simp [dedupStr]
    · by_cases hae : a = s
      · subst hae; simp [dedupStr]
      · simp only [dedupStr, List.mem_cons]
        right
        rw [List.mem_filter]
        exact ⟨ih hmem, by simp [hae]⟩

theorem parse_and_store_db_mono {st : DbState} {e : RawEmail} {source : String} {now : DateTime}
    {n : DbNotification} (h : n ∈ st.notifications) :
    n ∈ (parse_and_store_db st e source now).2.notifications := by
  unfold parse_and_store_db
  simp only []
  split
  · exact h
  · unfold insert_notification
    split
    · exact h
    · simp only [List.mem_append]
      exact Or.inl h

theorem parse_and_store_db_some_mem {st : DbState} {e : RawEmail} {source : String}
    {now : DateTime} {i : Nat} (h : (parse_and_store_db st e source now).1 = some i) :
    ∃ row ∈ (parse_and_store_db st e source now).2.notifications,
      row.inbox_source = source ∧
      row.reference_number = (parse_text e.body e.subject e.date_received now).reference_number := by
  unfold parse_and_store_db at h ⊢
  simp only [] at h ⊢
  split at h
  · simp at h
  · unfold insert_notification at h ⊢
    split at h
    · simp at h
    · rename_i h1 h2
      rw [if_neg h1, if_neg h2]
      refine ⟨_, List.mem_append_right _ (List.mem_singleton_self _), rfl, rfl⟩

theorem batch_mono (source : String) (now : DateTime) :
    ∀ (emails : List RawEmail) (st : DbState) (n : DbNotification),
      n ∈ st.notifications →
      n ∈ (parse_and_store_batch_db source now st emails).2.notifications
  | [], _, _, h => h
  | e :: rest, st, n, h => by
    rcases hps : parse_and_store_db st e source now with ⟨res, st₁⟩
    have h₁ : n ∈ st₁.notifications := by
      have := @parse_and_store_db_mono st e source now n h
      rw [hps] at this
      exact this
    cases res with
    | some i =>
      rcases hb : parse_and_store_batch_db source now st₁ rest with ⟨c, st₂⟩
      have := batch_mono source now rest st₁ n h₁
      rw [hb] at this
      simp only [parse_and_store_batch_db, hps, hb]
      exact this
    | none =>
      rcases hb : parse_and_store_batch_db source now st₁ rest with ⟨c, st₂⟩
      have := batch_mono source now rest st₁ n h₁
      rw [hb] at this
      simp only [parse_and_store_batch_db, hps, hb]
      exact this

theorem row_mem_invokedRefs {st : DbState} {source : String} {row : DbNotification}
    (hmem : row ∈ st.notifications) (hsrc : row.inbox_source = source) :
    row.reference_number ∈ invokedRefs st source := by
  unfold invokedRefs
  apply mem_dedupStr
  rw [List.mem_map]
  refine ⟨row, ?_, rfl⟩
  rw [List.mem_filter]
  exact ⟨hmem, by simp [hsrc]⟩

/-- Every reference number stored by the batch is among the reference numbers
the pairing phase iterates over, and the batch then reports at least one
stored record. -/
theorem storedRefs_invoked (source : String) (now : DateTime) :
    ∀ (emails : List RawEmail) (st : DbState) (ref : String),
      ref ∈ storedRefsOfBatch source now st emails →
      0 < (parse_and_store_batch_db source now st emails).1.stored ∧
      ref ∈ invokedRefs (parse_and_store_batch_db source now st emails).2 source
  | [], _, _, h => absurd h (by simp [storedRefsOfBatch])
  | e :: rest, st, ref, h => by
    rcases hps : parse_and_store_db st e source now with ⟨res, st₁⟩
    cases res with
    | some i =>
      rcases hb : parse_and_store_batch_db source now st₁ rest with ⟨c, st₂⟩
      simp only [storedRefsOfBatch, hps] at h
      simp only [parse_and_store_batch_db, hps, hb]
      constructor
      · simp
      · rcases List.mem_cons.mp h with rfl | hmem
        · have hsome : (parse_and_store_db st e source now).1 = some i := by rw [hps]
          obtain ⟨row, hrow, hsrc, href⟩ := parse_and_store_db_some_mem hsome
          rw [hps] at hrow
          have hrow₂ : row ∈ st₂.notifications := by
            have := batch_mono source now rest st₁ row hrow
            rw [hb] at this
            exact this
          rw [← href]
          exact row_mem_invokedRefs hrow₂ hsrc
        · have := storedRefs_invoked source now rest st₁ ref hmem
          rw [hb] at this
          exact this.2
    | none =>
      rcases hb : parse_and_store_batch_db source now st₁ rest with ⟨c, st₂⟩
      simp only [storedRefsOfBatch, hps] at h
      have := storedRefs_invoked source now rest st₁ ref h
      rw [hb] at this
      simp only [parse_and_store_batch_db, hps, hb]
      exact ⟨by simpa using this.1, this.2⟩

/-! ## Claim C1 — time_to_resolve_minutes granularity -/

/-- C1, counterexample: the claim says the stored `time_to_resolve_minutes`
is the floor of the elapsed minutes between the anchors' full receipt
timestamps.  On a store holding an Open record received 2024-10-29 10:30 and
a Resolved record received 2024-10-29 12:45 (as the pipeline stores them:
date-only `date_received`, clock time in `time_received`), `linkPair`
succeeds and stores 0, while the full-timestamp difference is 135 minutes. -/
theorem claim_C1_counterexample :
    (link_notification_pair exPairState "S-000001").1 = true ∧
    pairsFor (link_notification_pair exPairState "S-000001").2 "S-000001" =
      [{ reference_number := "S-000001", open_notification_id := 1,
         resolved_notification_id := 2, time_to_resolve_minutes := 0,
         incident_duration_minutes := some 95 }] ∧
    (match claimFullReceiptMinutes exRowResolved, claimFullReceiptMinutes exRowOpen with
     | some a, some b => a - b
     | _, _ => 0) = 135 ∧
    (0 : Int) ≠ 135 := by
  refine ⟨by decide, by decide, by decide, by decide⟩

/-- C1, amended: whenever `linkPair` succeeds with anchors whose
`date_received` is a pipeline-produced date-only string, the stored
`time_to_resolve_minutes` equals 1440 times the whole-day difference of the
two receipt dates — the receipt time of day (stored separately in
`time_received`) does not contribute, because `date_received` holds only the
date and `fromisoformat` reads it back as midnight. -/
theorem claim_C1_amended (st : DbState) (ref : String) (o r : DbNotification) (dO dR : Date)
    (hlen : ¬ (rowsForRef st ref).length < 2)
    (hfo : (rowsForRef st ref).find? (fun n => n.status == "Open") = some o)
    (hfr : (rowsForRef st ref).find? (fun n => n.status == "Resolved") = some r)
    (hdo : o.date_received = String.mk (fmtDateOfDate dO)) (hvo : dO.Valid)
    (hdr : r.date_received = String.mk (fmtDateOfDate dR)) (hvr : dR.Valid) :
    (link_notification_pair st ref).1 = true ∧
    pairsFor (link_notification_pair st ref).2 ref =
      [{ reference_number := ref, open_notification_id := o.id,
         resolved_notification_id := r.id,
         time_to_resolve_minutes :=
           1440 * ((daysFromCivil dR : Int) - (daysFromCivil dO : Int)),
         incident_duration_minutes := r.incident_duration_minutes }] := by
  have hiso1 : fromisoformatSeconds o.date_received.data =
      some ((86400 * daysFromCivil dO : Nat) : Int) := by
    rw [hdo, data_mk]; exact fromiso_fmtDate dO hvo
  have hiso2 : fromisoformatSeconds r.date_received.data =
      some ((86400 * daysFromCivil dR : Nat) : Int) := by
    rw [hdr, data_mk]; exact fromiso_fmtDate dR hvr
  have httr : intTruncDiv60 (((86400 * daysFromCivil dR : Nat) : Int) -
      ((86400 * daysFromCivil dO : Nat) : Int)) =
      1440 * ((daysFromCivil dR : Int) - (daysFromCivil dO : Int)) := by
    have hfac : ((86400 * daysFromCivil dR : Nat) : Int) -
        ((86400 * daysFromCivil dO : Nat) : Int) =
        60 * (1440 * ((daysFromCivil dR : Int) - (daysFromCivil dO : Int))) := by
      push_cast; ring
    rw [hfac, intTruncDiv60_mul]
  unfold link_notification_pair
  simp only []
  rw [if_neg hlen]
  simp only [hfo, hfr, hiso1, hiso2, httr]
  exact ⟨trivial, by simp only [pairsFor]; rw [filter_upsert st.pairs _ ref rfl]⟩

/-- C1, witness: the amended statement applied to the concrete two-row store
(both anchors received 2024-10-29, so the stored latency is 0 minutes). -/
theorem claim_C1_witness :
    (link_notification_pair exPairState "S-000001").1 = true ∧
    pairsFor (link_notification_pair exPairState "S-000001").2 "S-000001" =
      [{ reference_number := "S-000001", open_notification_id := 1,
         resolved_notification_id := 2,
         time_to_resolve_minutes :=
           1440 * ((daysFromCivil ⟨2024, 10, 29⟩ : Int) - (daysFromCivil ⟨2024, 10, 29⟩ : Int)),
         incident_duration_minutes := some 95 }] :=
  claim_C1_amended exPairState "S-000001" exRowOpen exRowResolved ⟨2024, 10, 29⟩ ⟨2024, 10, 29⟩
    (by decide) (by decide) (by decide) (by decide) (by unfold Date.Valid; decide)
    (by decide) (by unfold Date.Valid; decide)

/-! ## Claim C2 — linkPair idempotence on stable data -/

/-- C2: if `linkPair(r)` succeeds, calling it again with no intervening
writes performs no mutation (it returns `false` with the state unchanged,
since every row of the reference number is already Resolved), and the store
holds exactly one NotificationPair row for `r`. -/
theorem claim_C2 (st : DbState) (ref : String) (st₁ : DbState)
    (h : link_notification_pair st ref = (true, st₁)) :
    link_notification_pair st₁ ref = (false, st₁) ∧ (pairsFor st₁ ref).length = 1 := by
  unfold link_notification_pair at h
  simp only [] at h
  split at h
  · exact absurd h (by simp)
  · split at h
    · rename_i o r hfo hfr
      split at h
      · rename_i so sr hiso1 hiso2
        simp only [Prod.mk.injEq, true_and] at h
        subst h
        constructor
        · unfold link_notification_pair
          simp only []
          split
          · rfl
          · have hnone : List.find? (fun n => n.status == "Open")
                (rowsForRef
                  { st with
                      notifications := st.notifications.map
                        (fun n => applyStatusFlip ref (applyResolutionUpdate r.id sr
                          (intTruncDiv60 (sr - so)) n))
                      pairs := st.pairs.filter (fun q => !(q.reference_number == ref)) ++
                        [{ reference_number := ref, open_notification_id := o.id,
                           resolved_notification_id := r.id,
                           time_to_resolve_minutes := intTruncDiv60 (sr - so),
                           incident_duration_minutes := r.incident_duration_minutes }] } ref) =
                none := by
              rw [List.find?_eq_none]
              intro x hx
              have hx' := (List.perm_insertionSort _ _).mem_iff.mp hx
              rw [List.mem_filter] at hx'
              obtain ⟨hmem, hpred⟩ := hx'
              simp only [List.mem_map] at hmem
              obtain ⟨m, _, rfl⟩ := hmem
              have href : (applyResolutionUpdate r.id sr (intTruncDiv60 (sr - so))
                  m).reference_number = ref := by
                have hmm := hpred
                rw [applyStatusFlip_reference] at hmm
                exact beq_iff_eq.mp hmm
              rw [applyStatusFlip_status_ne_open _ _ href]
              simp
            rw [hnone]
        · simp only [pairsFor]
          rw [filter_upsert st.pairs _ ref rfl]
          rfl
      · exact absurd h (by simp)
    · exact absurd h (by simp)

/-- C2, witness: the statement applied to the concrete two-row store. -/
theorem claim_C2_witness :
    link_notification_pair (link_notification_pair exPairState "S-000001").2 "S-000001" =
      (false, (link_notification_pair exPairState "S-000001").2) ∧
    (pairsFor (link_notification_pair exPairState "S-000001").2 "S-000001").length = 1 :=
  claim_C2 exPairState "S-000001" (link_notification_pair exPairState "S-000001").2 (by decide)

/-! ## Claim C3 — batch classification of stored / duplicate / error -/

theorem batch_result_spec : ∀ batch : List (Bool × StoreOutcome),
    (parse_and_store_batch_result batch).errors = 0 ∧
    (parse_and_store_batch_result batch).stored + (parse_and_store_batch_result batch).duplicates +
      (parse_and_store_batch_result batch).errors = batch.length ∧
    (parse_and_store_batch_result batch).stored =
      batch.countP (fun pr => !pr.1 && pr.2.isInserted)
  | [] => ⟨rfl, rfl, rfl⟩
  | e :: rest => by
    obtain ⟨hE, hS, hC⟩ := batch_result_spec rest
    rcases e with ⟨a, b⟩
    simp only [StoreOutcome.isInserted] at hC
    cases a <;> cases b <;>
      simp [parse_and_store_batch_result, parse_and_store_result, List.countP_cons,
        StoreOutcome.isInserted, hE, hS, hC] <;> omega

/-- C3, counterexample: a record that is not already stored and whose
store-insert fails for a reason other than an existing external id is counted
as a duplicate, not as an error — `parse_and_store` catches every exception
and returns `None`, so the batch loop's error arm is unreachable and the
errors count stays 0, where the claim predicts errors = 1. -/
theorem claim_C3_counterexample :
    parse_and_store_batch_result [(false, StoreOutcome.otherFailure)] =
      { stored := 0, duplicates := 1, errors := 0 } ∧
    ¬ (parse_and_store_batch_result [(false, StoreOutcome.otherFailure)]).errors = 1 := by
  exact ⟨rfl, by decide⟩

/-- C3, amended: each raw email is classified as exactly one of stored or
duplicate (the three counters sum to the batch length and `errors` is always
0): a record is counted as stored exactly when it was not already present and
the insert succeeded, and every failure — duplicate key or any other
store/transport failure — increments the duplicates count, because
`parse_and_store` absorbs all exceptions; the batch always continues with the
remaining records. -/
theorem claim_C3_amended (batch : List (Bool × StoreOutcome)) :
    (parse_and_store_batch_result batch).errors = 0 ∧
    (parse_and_store_batch_result batch).stored + (parse_and_store_batch_result batch).duplicates +
      (parse_and_store_batch_result batch).errors = batch.length ∧
    (parse_and_store_batch_result batch).stored =
      batch.countP (fun pr => !pr.1 && pr.2.isInserted) :=
  batch_result_spec batch

/-! ## Claim C4 — which reference numbers the pairing phase visits -/

/-- C4, counterexample: after a batch whose only stored record touches
reference number B-000002, the pairing phase iterates over A-000001 as well —
a reference number stored by an earlier run for the same inbox source and not
touched by this batch — contradicting "and for no other reference numbers". -/
theorem claim_C4_counterexample :
    storedRefsOfBatch "inbox2_continuous" now0 exC4State exC4Batch = ["B-000002"] ∧
    invokedRefs (parse_and_store_batch_db "inbox2_continuous" now0 exC4State exC4Batch).2
      "inbox2_continuous" = ["A-000001", "B-000002"] ∧
    "A-000001" ∉ storedRefsOfBatch "inbox2_continuous" now0 exC4State exC4Batch := by
  refine ⟨by decide, by decide, by decide⟩

/-- C4, amended: when the batch stored at least one record, the sync pairing
phase invokes the pairing engine over every distinct reference number stored
for the inbox source (a superset of those touched by the batch: every
reference number of a stored record is among them), counting `true` results;
with nothing stored the engine is not invoked. -/
theorem claim_C4_amended (st : DbState) (emails : List RawEmail) (source : String)
    (now : DateTime) (ref : String)
    (h : ref ∈ storedRefsOfBatch source now st emails) :
    0 < (parse_and_store_batch_db source now st emails).1.stored ∧
    ref ∈ invokedRefs (parse_and_store_batch_db source now st emails).2 source ∧
    sync_link_phase (parse_and_store_batch_db source now st emails).2
        (parse_and_store_batch_db source now st emails).1 source =
      link_all_pairs (parse_and_store_batch_db source now st emails).2 source := by
  obtain ⟨h1, h2⟩ := storedRefs_invoked source now emails st ref h
  exact ⟨h1, h2, by unfold sync_link_phase; rw [if_pos h1]⟩

/-- C4, witness: the amended statement applied to the concrete store and
one-email batch. -/
theorem claim_C4_witness :
    0 < (parse_and_store_batch_db "inbox2_continuous" now0 exC4State exC4Batch).1.stored ∧
    "B-000002" ∈ invokedRefs
      (parse_and_store_batch_db "inbox2_continuous" now0 exC4State exC4Batch).2
      "inbox2_continuous" ∧
    sync_link_phase (parse_and_store_batch_db "inbox2_continuous" now0 exC4State exC4Batch).2
        (parse_and_store_batch_db "inbox2_continuous" now0 exC4State exC4Batch).1
        "inbox2_continuous" =
      link_all_pairs (parse_and_store_batch_db "inbox2_continuous" now0 exC4State exC4Batch).2
        "inbox2_continuous" :=
  claim_C4_amended exC4State exC4Batch "inbox2_continuous" now0 "B-000002" (by decide)

/-! ## Claim C5 — incident duration from both extracted timestamps -/

/-- C5: for every Resolved-status input whose start and end incident
timestamps are both successfully extracted, `incident_duration_minutes` is the
difference of the two full timestamps in whole minutes (multi-day spans
included), and it is non-negative whenever the end is not before the start. -/
theorem claim_C5 (text subject : String) (d : Option String) (now : DateTime)
    (t1 t2 : DateTime)
    (hst : statusFromSubject subject = "Resolved")
    (h1 : extractIncidentTime startTimeMarker text.data = some t1)
    (h2 : extractIncidentTime endTimeMarker text.data = some t2) :
    (parse_text text subject d now).incident_duration_minutes =
      some (minutesSinceEpoch t2 - minutesSinceEpoch t1) ∧
    (minutesSinceEpoch t1 ≤ minutesSinceEpoch t2 →
      0 ≤ minutesSinceEpoch t2 - minutesSinceEpoch t1) := by
  refine ⟨?_, fun hle => by omega⟩
  have hv1 := extractIncidentTime_valid h1
  have hv2 := extractIncidentTime_valid h2
  simp only [parse_text, hst, if_pos, h1, h2, Option.map_some, Option.map_some', data_mk,
    parseYmdHMS_fmt t1 hv1, parseYmdHMS_fmt t2 hv2]

/-- C5, witness: the repository's own S-003141 fixture — start
2025-10-22 15:05 GMT, end 2025-10-23 00:37 GMT — yields 572 minutes. -/
theorem claim_C5_witness :
    statusFromSubject exSubj = "Resolved" ∧
    extractIncidentTime startTimeMarker exBody.data = some ⟨2025, 10, 22, 15, 5⟩ ∧
    extractIncidentTime endTimeMarker exBody.data = some ⟨2025, 10, 23, 0, 37⟩ ∧
    (parse_text exBody exSubj none now0).incident_duration_minutes = some 572 := by
  refine ⟨by decide, by decide, by decide, ?_⟩
  have h := claim_C5 exBody exSubj none now0 ⟨2025, 10, 22, 15, 5⟩ ⟨2025, 10, 23, 0, 37⟩
    (by decide) (by decide) (by decide)
  rw [h.1]
  decide

/-! ## Claim C6 — incident-time markers and the `&nbsp;` entity -/

/-- C6, counterexample: the claim says a marker followed directly by the
timestamp with no `&nbsp;` entity still yields the extracted timestamp.  The
regex `<b>Start Time:</b>\s*&nbsp;([^<]+)` makes the entity mandatory: on a
Resolved body whose marker is followed by a space and the timestamp but no
`&nbsp;`, nothing is extracted, while the same body with the entity present
does extract. -/
theorem claim_C6_counterexample :
    (parse_text exBodyNoNbsp "a resolved b" none now0).incident_start_time = none ∧
    (parse_text exBodyWithNbsp "a resolved b" none now0).incident_start_time =
      some "2025-10-22 15:05:00" := by
  refine ⟨by decide, by decide⟩

/-- C6, amended: for Resolved-status inputs, the incident start (resp. end)
timestamp is extracted whenever the marker is followed by optional whitespace,
then a mandatory `&nbsp;` entity, then a parseable `<`-free timestamp; with
the entity absent nothing is extracted (counterexample). -/
theorem claim_C6_amended (subject : String) (d : Option String) (now : DateTime)
    (ws ts : List Char) (t : DateTime)
    (hst : statusFromSubject subject = "Resolved")
    (hws : ∀ c ∈ ws, isSpaceCh c = true)
    (hts : ∀ c ∈ ts, (!(c == '<')) = true)
    (hne : ts ≠ [])
    (hp : parseYmdHM (replaceGMT (stripChars ts)) = some t) :
    (parse_text (String.mk (startTimeMarker ++ (ws ++ ("&nbsp;".data ++ ts)))) subject d
        now).incident_start_time = some (String.mk (fmtYmdHMS t)) ∧
    (parse_text (String.mk (endTimeMarker ++ (ws ++ ("&nbsp;".data ++ ts)))) subject d
        now).incident_end_time = some (String.mk (fmtYmdHMS t)) := by
  have hexS : extractIncidentTime startTimeMarker
      (String.mk (startTimeMarker ++ (ws ++ ("&nbsp;".data ++ ts)))).data = some t := by
    rw [data_mk]
    exact extract_marker_head '<' ("b>Start Time:</b>".data) ws ts t hws hts hne hp
  have hexE : extractIncidentTime endTimeMarker
      (String.mk (endTimeMarker ++ (ws ++ ("&nbsp;".data ++ ts)))).data = some t := by
    rw [data_mk]
    exact extract_marker_head '<' ("b>End Time:</b>".data) ws ts t hws hts hne hp
  constructor
  · simp only [parse_text, hst, if_pos, hexS, Option.map_some']
  · simp only [parse_text, hst, if_pos, hexE, Option.map_some']

/-- C6, witness: the amended statement at a concrete marker-led body with one
space of optional whitespace, the mandatory entity, and the timestamp
`2025-10-22 15:05 GMT`. -/
theorem claim_C6_witness :
    statusFromSubject "maintenance resolved" = "Resolved" ∧
    (parse_text (String.mk (startTimeMarker ++ ([' '] ++ ("&nbsp;".data ++
        "2025-10-22 15:05 GMT".data)))) "maintenance resolved" none now0).incident_start_time =
      some (String.mk (fmtYmdHMS ⟨2025, 10, 22, 15, 5⟩)) ∧
    (parse_text (String.mk (endTimeMarker ++ ([' '] ++ ("&nbsp;".data ++
        "2025-10-22 15:05 GMT".data)))) "maintenance resolved" none now0).incident_end_time =
      some (String.mk (fmtYmdHMS ⟨2025, 10, 22, 15, 5⟩)) :=
  ⟨by decide,
   (claim_C6_amended "maintenance resolved" none now0 [' '] ("2025-10-22 15:05 GMT".data)
      ⟨2025, 10, 22, 15, 5⟩ (by decide) (by decide) (by decide) (by decide) (by decide)).1,
   (claim_C6_amended "maintenance resolved" none now0 [' '] ("2025-10-22 15:05 GMT".data)
      ⟨2025, 10, 22, 15, 5⟩ (by decide) (by decide) (by decide) (by decide) (by decide)).2⟩

/-! ## Claim C7 — status derivation from the subject -/

/-- C7, counterexample: the claim says a subject with no resolved-class
keyword that contains `continuing` derives Continuing.  The code checks an
`elif "open"` branch first: the subject `"open continuing"` derives Open,
while the claim's rule derives Continuing. -/
theorem claim_C7_counterexample :
    (parse_text "" "open continuing" none now0).status = "Open" ∧
    claimStatusRule "open continuing" = "Continuing" ∧
    ("Open" : String) ≠ "Continuing" := by
  refine ⟨by decide, by decide, by decide⟩

/-- C7, amended: for every subject, the derived status is Resolved when the
lower-cased subject contains `resolved`, `completed` or `restored`; otherwise
Open when it contains `open`; otherwise Continuing when it contains
`continuing`; otherwise Open — and neither the body text, the declared date,
nor the clock changes the status. -/
theorem claim_C7_amended (text subject : String) (d : Option String) (now : DateTime) :
    (parse_text text subject d now).status =
      (let low := subject.data.map pyLower
       if containsStr ("resolved".data) low || containsStr ("completed".data) low ||
          containsStr ("restored".data) low then "Resolved"
       else if containsStr ("open".data) low then "Open"
       else if containsStr ("continuing".data) low then "Continuing"
       else "Open") := by
  simp only [parse_text]
  show statusFromSubject subject = _
  obtain ⟨data⟩ := subject
  cases data with
  | nil => rfl
  | cons c cs => rfl

/-! ## Claim C8 — extraction purity and the clock fallback -/

/-- C8, counterexample: with no declared date, the received date and time
fields come from the processing-time clock, so two invocations with identical
arguments run at different instants return different records — `extract` is
not a pure function of `(body, subject, declaredDate)` alone. -/
theorem claim_C8_counterexample :
    parse_text "" "" none now0 ≠ parse_text "" "" none now1 := by decide

/-- C8, amended: when a declared date is supplied and parses as an RFC 2822
date header, the extracted record — including the received date and time
fields — is a pure function of `(body, subject, declaredDate)`: the
processing-time clock does not influence any field.  With the declared date
absent or unparseable, the received fields fall back to the clock
(counterexample). -/
theorem claim_C8_amended (text subject : String) (d : String) (dt : DateTime)
    (now1 now2 : DateTime)
    (h : parsedate_to_datetime d.data = some dt) :
    parse_text text subject (some d) now1 = parse_text text subject (some d) now2 := by
  simp only [parse_text, h]

/-- C8, witness: the amended statement at the canonical header
`"Tue, 29 Oct 2024 10:30:45 -0700"` and two different clock instants. -/
theorem claim_C8_witness :
    parsedate_to_datetime ("Tue, 29 Oct 2024 10:30:45 -0700".data) =
      some ⟨2024, 10, 29, 10, 30⟩ ∧
    parse_text "Platform: IDP" "ORBCOMM [S-003141] - Open"
        (some "Tue, 29 Oct 2024 10:30:45 -0700") now0 =
      parse_text "Platform: IDP" "ORBCOMM [S-003141] - Open"
        (some "Tue, 29 Oct 2024 10:30:45 -0700") now1 :=
  ⟨by decide,
   claim_C8_amended "Platform: IDP" "ORBCOMM [S-003141] - Open"
     "Tue, 29 Oct 2024 10:30:45 -0700" ⟨2024, 10, 29, 10, 30⟩ now0 now1 (by decide)⟩

/-! ## Claim C9 — dedup by external id -/

/-- C9: starting from any store satisfying the per-external-id uniqueness
invariant, every sequence of inserts preserves it (at most one row per
`gmail_message_id`), and inserting a record whose external id is already
stored is a no-op returning the duplicate signal `None` with the store
unchanged — the `IntegrityError` is caught, not propagated. -/
theorem claim_C9 (st : DbState) (h : UniqueIds st) :
    (∀ batch, UniqueIds (insertBatch st batch)) ∧
    (∀ data, (∃ n ∈ st.notifications, n.gmail_message_id = data.gmail_message_id) →
      insert_notification st data = (none, st)) :=
  ⟨fun batch => insertBatch_unique batch st h, fun data hd => insert_dup st data hd⟩

/-- C9, witness: a one-row store; inserting the same external id twice in a
row keeps uniqueness, and a duplicate insert is a no-op returning `none`. -/
theorem claim_C9_witness :
    UniqueIds (insertBatch exC9State [exC9DupData, exC9DupData]) ∧
    insert_notification exC9State exC9DupData = (none, exC9State) :=
  ⟨(claim_C9 exC9State (by unfold UniqueIds; decide)).1 [exC9DupData, exC9DupData],
   (claim_C9 exC9State (by unfold UniqueIds; decide)).2 exC9DupData ⟨exRowOpen, by decide, rfl⟩⟩

/-! ## Claim C10 — no half-computed incident duration -/

/-- C10: for every Resolved-status input where exactly one of the incident
start/end timestamps is extracted, `incident_duration_minutes` is absent, and
each incident field still reflects exactly its own extraction — the parsed
side is kept, the other stays absent. -/
theorem claim_C10 (text subject : String) (d : Option String) (now : DateTime) (t : DateTime)
    (hst : statusFromSubject subject = "Resolved")
    (h : (extractIncidentTime startTimeMarker text.data = some t ∧
          extractIncidentTime endTimeMarker text.data = none) ∨
         (extractIncidentTime startTimeMarker text.data = none ∧
          extractIncidentTime endTimeMarker text.data = some t)) :
    (parse_text text subject d now).incident_duration_minutes = none ∧
    (parse_text text subject d now).incident_start_time =
      (extractIncidentTime startTimeMarker text.data).map (fun dt => String.mk (fmtYmdHMS dt)) ∧
    (parse_text text subject d now).incident_end_time =
      (extractIncidentTime endTimeMarker text.data).map (fun dt => String.mk (fmtYmdHMS dt)) := by
  rcases h with ⟨hs, he⟩ | ⟨hs, he⟩ <;>
    simp only [parse_text, hst, if_pos, hs, he, Option.map_some', Option.map_none'] <;>
    exact ⟨trivial, trivial, trivial⟩

/-- C10, witness: the repository's malformed-start fixture — `Start Time:`
present but unparseable, `End Time:` parseable — yields an absent duration
with the end time still extracted. -/
theorem claim_C10_witness :
    statusFromSubject "ORBCOMM Service Notification [S-003200] IDP - RESOLVED" = "Resolved" ∧
    (parse_text exBodyMalformedStart "ORBCOMM Service Notification [S-003200] IDP - RESOLVED"
        none now0).incident_duration_minutes = none ∧
    (parse_text exBodyMalformedStart "ORBCOMM Service Notification [S-003200] IDP - RESOLVED"
        none now0).incident_start_time = none ∧
    (parse_text exBodyMalformedStart "ORBCOMM Service Notification [S-003200] IDP - RESOLVED"
        none now0).incident_end_time = some "2025-10-20 14:00:00" := by
  have h := claim_C10 exBodyMalformedStart
    "ORBCOMM Service Notification [S-003200] IDP - RESOLVED" none now0 ⟨2025, 10, 20, 14, 0⟩
    (by decide) (Or.inr ⟨by decide, by decide⟩)
  refine ⟨by decide, h.1, ?_, ?_⟩
  · rw [h.2.1]; decide
  · rw [h.2.2]; decide

end ServiceTracker
